import Mathlib

/-!
# Verification of the hydroclima2 wM-Bus driver payload decoder

Shallow embedding of `src/components/wmbus/driver_hydroclima2.cpp`
(the `hydroclima2` heat-cost-allocation meter driver) and proofs about it.

Modelling conventions:
* `uchar` bytes are `Fin 256`; `ushort`/`uint` values are `ℕ` with the masks
  the C code applies (`& 0x1FF`, `>> 9`, `& 0x7F`) made explicit.
* C `double` results of the two scalar decoders are modelled as exact
  rationals (`ℚ`); the IEEE-754 rounding of the C `double` division is not
  modelled.
* The unguarded month-table walk in `DecodeDateTime` indexes
  `daysInMonths[month]` with no bound on `month`; when the walk runs off the
  end of the 12-entry array the C++ read is out of bounds (undefined
  behavior).  The embedding returns `none` exactly there.
-/

namespace HydroClima2

/-- The local array `daysInMonths` of `DecodeDateTime`:
`{ 31, 28, 31, 30, 31, 30, 31, 31, 30, 31, 30, 31 }`, with entry 1 (February)
overwritten to 29 when `isLeapYear`. -/
def daysInMonths (leap : Bool) : List ℕ :=
  [31, if leap then 29 else 28, 31, 30, 31, 30, 31, 31, 30, 31, 30, 31]

/-- The leap-year test of `DecodeDateTime`:
`(year % 4 == 0 && year % 100 != 0) || (year % 400 == 0)`. -/
def isLeapYear (year : ℕ) : Bool :=
  (year % 4 == 0 && year % 100 != 0) || (year % 400 == 0)

/-- The `while (dayOfYear > daysInMonths[month])` loop of `DecodeDateTime`.
`months` is the not-yet-consumed suffix of the table and `month` the current
index.  When the loop guard would read past the end of the 12-entry array
(`months = []` with the guard still to be evaluated) the C++ access
`daysInMonths[month]` is out of bounds — undefined behavior — and the
embedding returns `none`. -/
def monthWalk : List ℕ → ℕ → ℕ → Option (ℕ × ℕ)
  | [], _, _ => none
  | d :: rest, month, dayOfYear =>
    if dayOfYear > d then monthWalk rest (month + 1) (dayOfYear - d)
    else some (month, dayOfYear)

/-- The numeric components that `DecodeDateTime` feeds to `snprintf`:
`(year, month, dayOfYear, hour, minutes, seconds)`.  `month` is the raw
0-based table index (0 = January) and `day` the remaining day count, exactly
as printed by the source. -/
structure DateTimeParts where
  year : ℕ
  month : ℕ
  day : ℕ
  hour : ℕ
  minutes : ℕ
  seconds : ℕ
deriving DecidableEq, Repr

/-- `string DecodeDateTime(ushort encodedDate, ushort encodedTime)` up to the
final `snprintf`: the six numeric fields.  Returns `none` exactly when the
month walk reads past the table (undefined behavior in the source). -/
def DecodeDateTime (encodedDate encodedTime : ℕ) : Option DateTimeParts :=
  let dayOfYear := encodedDate % 512        -- encodedDate & 0x1FF
  let yearOffset := encodedDate / 512 % 128 -- (encodedDate >> 9) & 0x7F
  let year := yearOffset + 2000
  let leap := isLeapYear year
  match monthWalk (daysInMonths leap) 0 dayOfYear with
  | none => none
  | some (month, day) =>
    let hour := encodedTime / 1800
    let minutes := (encodedTime - hour * 1800) / 30
    let seconds := (encodedTime - hour * 1800 - minutes * 30) / 2
    some ⟨year, month, day, hour, minutes, seconds⟩

/-- Zero-padding to two digits, as `%02d` does for values below 100. -/
def pad2 (n : ℕ) : String :=
  if n < 10 then "0" ++ toString n else toString n

/-- The `snprintf(buf, sizeof(buf), "%d-%02d-%02dT%02d:%02d:%02dZ", ...)`
rendering of `DecodeDateTime`. -/
def renderDateTime (p : DateTimeParts) : String :=
  toString p.year ++ "-" ++ pad2 p.month ++ "-" ++ pad2 p.day ++ "T" ++
    pad2 p.hour ++ ":" ++ pad2 p.minutes ++ ":" ++ pad2 p.seconds ++ "Z"

/-- The string returned by the C++ `DecodeDateTime` (when its behavior is
defined). -/
def DecodeDateTimeString (encodedDate encodedTime : ℕ) : Option String :=
  (DecodeDateTime encodedDate encodedTime).map renderDateTime

/-- `double toTemperature(uchar hi, uchar lo)`: `((hi<<8) | lo) / 100.0`,
with the quotient taken exactly in `ℚ`. -/
def toTemperature (hi lo : Fin 256) : ℚ :=
  ((((hi : ℕ) <<< 8 ||| (lo : ℕ) : ℕ) : ℚ)) / 100

/-- `double toIndicationU(uchar hi, uchar lo)`: `((hi<<8) | lo) / 10.0`,
with the quotient taken exactly in `ℚ`. -/
def toIndicationU (hi lo : Fin 256) : ℚ :=
  ((((hi : ℕ) <<< 8 ||| (lo : ℕ) : ℕ) : ℚ)) / 10

/-- `KindOfData` — only `CONTENT` is used by this driver. -/
inductive KindOfData
  | CONTENT
deriving DecidableEq, Repr

/-- `Understanding` — only `FULL` is used by this driver. -/
inductive Understanding
  | FULL
deriving DecidableEq, Repr

/-- The arguments of the `addSpecialExplanation` format strings, one
constructor per call site of `Driver::processContent`:
* `numMeasurements`: `"*** %02X%02X num measurements %d"` with the two raw
  bytes and the decoded count;
* `statusWord`: `"*** %02X%02X status"` with the two raw bytes (the status
  value is passed but unused by the format string);
* `deviceDate`: `"*** %02X%02X%02X%02X device date (%s)"` with the four raw
  bytes and the `DecodeDateTime` string;
* `value`: `"*** %02X%02X (%s)"` with the two raw bytes and the info string
  rendered from the field just stored (modelled here as the field name and
  the exact rational value passed to `setNumericValue`). -/
inductive Desc
  | numMeasurements (b0 b1 : ℕ) (n : ℕ)
  | statusWord (b0 b1 : ℕ) (s : ℕ)
  | deviceDate (b0 b1 b2 b3 : ℕ) (decoded : String)
  | value (field : String) (b0 b1 : ℕ) (v : ℚ)
deriving DecidableEq, Repr

/-- One `t->addSpecialExplanation(i+offset, 2, KindOfData::CONTENT,
Understanding::FULL, ...)` call: byte offset, byte length, kind,
understanding, and the description data. -/
structure Explanation where
  offset : ℤ
  len : ℕ
  kind : KindOfData
  understanding : Understanding
  desc : Desc
deriving DecidableEq, Repr

/-- The four numeric fields registered by the `Driver` constructor.  Each is
unset (`none`) until the corresponding `setNumericValue` call runs. -/
structure DecodedReading where
  previous_consumption : Option ℚ
  previous_average_ambient_temperature : Option ℚ
  current_consumption : Option ℚ
  average_ambient_temperature : Option ℚ
deriving DecidableEq, Repr

/-- A fresh `DecodedReading` with every field unset. -/
def emptyReading : DecodedReading := ⟨none, none, none, none⟩

/-- The inputs `Driver::processContent` reads from its `Telegram *t`
collaborator: `t->mfct_0f_index`, `t->header_size`, and the byte vector
filled by `t->extractMfctData(&bytes)`. -/
structure Telegram where
  mfct_0f_index : ℤ
  header_size : ℕ
  mfctData : List (Fin 256)

/-- `bytes[k+1]<<8 | bytes[k]`: the 16-bit value the driver assembles from
two consecutive payload bytes, second byte high. -/
def u16at (bytes : List (Fin 256)) (k : ℕ) : ℕ :=
  ((bytes.getD (k + 1) 0 : ℕ) <<< 8) ||| (bytes.getD k 0 : ℕ)

/-- `void Driver::processContent(Telegram *t)`.  Returns the final
`DecodedReading` (the `setNumericValue` calls made) and the list of
explanations emitted, in order.  The running index `i` of the source is
statically 0, 2, 4, 8, 10, 12, 14 at the successive steps, so the indices
are written as literals.  Returns `none` exactly when `DecodeDateTime` hits
its out-of-bounds table read (undefined behavior in the source). -/
def processContent (t : Telegram) : Option (DecodedReading × List Explanation) :=
  -- if (t->mfct_0f_index == -1) return;  // Check that there is mfct data.
  if t.mfct_0f_index = -1 then some (emptyReading, []) else
  -- int offset = t->header_size + t->mfct_0f_index;
  let offset : ℤ := (t.header_size : ℤ) + t.mfct_0f_index
  let bytes := t.mfctData
  let len := bytes.length
  -- i = 0: num measurements
  if 0 + 1 ≥ len then some (emptyReading, []) else
  let e1 : Explanation := ⟨0 + offset, 2, .CONTENT, .FULL,
    .numMeasurements (bytes.getD 0 0) (bytes.getD 1 0) (u16at bytes 0)⟩
  -- i = 2: status
  if 2 + 1 ≥ len then some (emptyReading, [e1]) else
  let e2 : Explanation := ⟨2 + offset, 2, .CONTENT, .FULL,
    .statusWord (bytes.getD 2 0) (bytes.getD 3 0) (u16at bytes 2)⟩
  -- i = 4: device date; time = bytes[5]<<8|bytes[4], date = bytes[7]<<8|bytes[6]
  if 4 + 3 ≥ len then some (emptyReading, [e1, e2]) else
  match DecodeDateTime (u16at bytes 6) (u16at bytes 4) with
  | none => none
  | some dt =>
  let e3 : Explanation := ⟨4 + offset, 2, .CONTENT, .FULL,
    .deviceDate (bytes.getD 4 0) (bytes.getD 5 0) (bytes.getD 6 0) (bytes.getD 7 0)
      (renderDateTime dt)⟩
  -- i = 8: previous consumption
  if 8 + 1 ≥ len then some (emptyReading, [e1, e2, e3]) else
  let v4 := toIndicationU (bytes.getD 9 0) (bytes.getD 8 0)
  let r4 : DecodedReading := { emptyReading with previous_consumption := some v4 }
  let e4 : Explanation := ⟨8 + offset, 2, .CONTENT, .FULL,
    .value "previous_consumption" (bytes.getD 8 0) (bytes.getD 9 0) v4⟩
  -- i = 10: previous average ambient temperature
  if 10 + 1 ≥ len then some (r4, [e1, e2, e3, e4]) else
  let v5 := toTemperature (bytes.getD 11 0) (bytes.getD 10 0)
  let r5 : DecodedReading := { r4 with previous_average_ambient_temperature := some v5 }
  let e5 : Explanation := ⟨10 + offset, 2, .CONTENT, .FULL,
    .value "previous_average_ambient_temperature" (bytes.getD 10 0) (bytes.getD 11 0) v5⟩
  -- i = 12: current consumption
  if 12 + 1 ≥ len then some (r5, [e1, e2, e3, e4, e5]) else
  let v6 := toIndicationU (bytes.getD 13 0) (bytes.getD 12 0)
  let r6 : DecodedReading := { r5 with current_consumption := some v6 }
  let e6 : Explanation := ⟨12 + offset, 2, .CONTENT, .FULL,
    .value "current_consumption" (bytes.getD 12 0) (bytes.getD 13 0) v6⟩
  -- i = 14: current/average ambient temperature
  if 14 + 1 ≥ len then some (r6, [e1, e2, e3, e4, e5, e6]) else
  let v7 := toTemperature (bytes.getD 15 0) (bytes.getD 14 0)
  let r7 : DecodedReading := { r6 with average_ambient_temperature := some v7 }
  let e7 : Explanation := ⟨14 + offset, 2, .CONTENT, .FULL,
    .value "average_ambient_temperature" (bytes.getD 14 0) (bytes.getD 15 0) v7⟩
  some (r7, [e1, e2, e3, e4, e5, e6, e7])

/-- Decidable conjunction checked by the C10 theorem: the walk returns a
month index at most 11 (so every table access was in bounds) and a final day
count between 1 and the length of the final month. -/
def walkChecked (leap : Bool) (d : ℕ) : Bool :=
  match monthWalk (daysInMonths leap) 0 d with
  | none => false
  | some (mo, day) =>
    decide (mo ≤ 11 ∧ 1 ≤ day ∧ day ≤ (daysInMonths leap).getD mo 0)

/-- The 13-byte example payload of the end-to-end scenario:
`02 00 00 00 64 19 32 07 E8 03 0F 27 10`. -/
def examplePayload : List (Fin 256) :=
  [0x02, 0x00, 0x00, 0x00, 0x64, 0x19, 0x32, 0x07, 0xE8, 0x03, 0x0F, 0x27, 0x10]

/-- The example telegram: zero-offset base (`header_size = 0`,
`mfct_0f_index = 0`) carrying `examplePayload`. -/
def exampleTelegram : Telegram := ⟨0, 0, examplePayload⟩

/-- Spec-side (from the claim wording): cumulative byte boundaries of the
seven fixed segments (2, 2, 4, 2, 2, 2, 2 bytes). -/
def segmentEnds : List ℕ := [2, 4, 8, 10, 12, 14, 16]

/-- Spec-side (from the claim wording): how many of the seven segments fit
entirely within a payload of `len` bytes. -/
def fittingCount (len : ℕ) : ℕ :=
  (segmentEnds.filter (fun e => decide (e ≤ len))).length

/-- Spec-side: the (offset, length) pairs of the explanations the seven steps
emit, relative to `base`; every explanation is 2 bytes long in the source,
including the one covering the 4-byte date/time field. -/
def segmentRanges (base : ℤ) : List (ℤ × ℕ) :=
  [(0 + base, 2), (2 + base, 2), (4 + base, 2), (8 + base, 2),
   (10 + base, 2), (12 + base, 2), (14 + base, 2)]

/-! ## Helper lemmas about the month-table walk -/


/-- If the remaining day count exceeds the sum of the remaining table entries,
the walk consumes the whole table and ends at the out-of-bounds read. -/
lemma monthWalk_none_of_sum_lt (months : List ℕ) :
    ∀ m d, months.sum < d → monthWalk months m d = none := by
  induction months with
  | nil => intro m d _; rfl
  | cons x rest ih =>
    intro m d h
    simp only [List.sum_cons] at h
    simp only [monthWalk]
    rw [if_pos (by omega)]
    exact ih _ _ (by omega)

set_option maxRecDepth 8000 in
/-- On every day count the real tables can reach (`0 ≤ d ≤ 366` for the leap
table, `0 ≤ d ≤ 365` for the regular one) the walk stays inside the table and
returns a result. -/
lemma monthWalk_total :
    ∀ d < 367, (monthWalk (daysInMonths true) 0 d).isSome = true ∧
      (d ≤ 365 → (monthWalk (daysInMonths false) 0 d).isSome = true) := by decide

/-- A successful walk consumed exactly the months before the final index:
the final day count plus the sum of the consumed table entries is the
starting day count, and the index never moves backwards. -/
lemma monthWalk_sum_consumed (months : List ℕ) :
    ∀ m d mo day, monthWalk months m d = some (mo, day) →
      m ≤ mo ∧ day + (months.take (mo - m)).sum = d := by
  induction months with
  | nil => intro m d mo day h; exact absurd h (by simp [monthWalk])
  | cons x rest ih =>
    intro m d mo day h
    simp only [monthWalk] at h
    by_cases hx : d > x
    · rw [if_pos hx] at h
      obtain ⟨h1, h2⟩ := ih (m + 1) (d - x) mo day h
      refine ⟨by omega, ?_⟩
      have hmo : mo - m = (mo - (m + 1)) + 1 := by omega
      rw [hmo, List.take_succ_cons, List.sum_cons]
      omega
    · rw [if_neg hx] at h
      simp only [Option.some.injEq, Prod.mk.injEq] at h
      obtain ⟨rfl, rfl⟩ := h
      simp

/-- `DecodeDateTime` returns a result whenever the day-of-year field does not
exceed the length of the decoded year. -/
lemma DecodeDateTime_isSome (e t : ℕ)
    (h : e % 512 ≤ if isLeapYear (e / 512 % 128 + 2000) then 366 else 365) :
    (DecodeDateTime e t).isSome = true := by
  simp only [DecodeDateTime]
  have hw : (monthWalk (daysInMonths (isLeapYear (e / 512 % 128 + 2000))) 0
      (e % 512)).isSome = true := by
    cases hl : isLeapYear (e / 512 % 128 + 2000) with
    | false =>
      rw [hl] at h
      have h365 : e % 512 ≤ 365 := by simpa using h
      exact (monthWalk_total (e % 512) (by omega)).2 h365
    | true =>
      rw [hl] at h
      have h366 : e % 512 ≤ 366 := by simpa using h
      exact (monthWalk_total (e % 512) (by omega)).1
  rcases hmw : monthWalk (daysInMonths (isLeapYear (e / 512 % 128 + 2000))) 0
      (e % 512) with _ | ⟨mo, day⟩
  · rw [hmw] at hw; simp at hw
  · rfl

/-! ## Claim theorems -/

/-- Claim C8 (confirmed): when the telegram carries no manufacturer-data
section (`t->mfct_0f_index == -1`), `processContent` returns immediately:
no `DecodedReading` field is set and no explanation is emitted. -/
theorem processContent_no_mfct (t : Telegram) (h : t.mfct_0f_index = -1) :
    processContent t = some (emptyReading, []) := by
  simp only [processContent, h, if_pos]

/-- Witness for C8: a concrete telegram with `mfct_0f_index = -1` and a
nonempty payload decodes to the untouched empty result. -/
theorem processContent_no_mfct_witness :
    processContent ⟨-1, 5, [1, 2, 3]⟩ = some (emptyReading, []) :=
  processContent_no_mfct ⟨-1, 5, [1, 2, 3]⟩ rfl

/-- Claim C2 (code_bug): for every `encodedDate` whose day-of-year field
(bits 0–8) exceeds 366, the source has no Malformed-date failure path at all:
the `while (dayOfYear > daysInMonths[month])` loop consumes all twelve table
entries and then evaluates its guard at `daysInMonths[12]` — an out-of-bounds
read of the fixed 12-entry table, i.e. undefined behavior (modelled as
`none`), not a reported failure. -/
theorem DecodeDateTime_dayOfYear_overflow_unguarded (e t : ℕ)
    (h : 366 < e % 512) :
    DecodeDateTime e t = none := by
  simp only [DecodeDateTime]
  have hsum : (daysInMonths (isLeapYear (e / 512 % 128 + 2000))).sum < e % 512 := by
    cases isLeapYear (e / 512 % 128 + 2000)
    · have : (daysInMonths false).sum = 365 := by decide
      omega
    · have : (daysInMonths true).sum = 366 := by decide
      omega
  rw [monthWalk_none_of_sum_lt _ _ _ hsum]

/-- Witness for C2: `encodedDate = 367` (day-of-year 367, year 2000) drives
the month walk past the table. -/
theorem DecodeDateTime_dayOfYear_overflow_unguarded_witness :
    366 < 367 % 512 ∧ DecodeDateTime 367 0 = none :=
  ⟨by decide, DecodeDateTime_dayOfYear_overflow_unguarded 367 0 (by decide)⟩

/-- Claim C5 (code_bug): for every `encodedTime` beyond 43199 the source
performs no range check: it silently emits a timestamp whose hour field is
`encodedTime / 1800 ≥ 24` instead of reporting an InvalidTime failure. -/
theorem DecodeDateTime_hour_ge_24_silent (t : ℕ) (h : 43199 < t) :
    ∃ p, DecodeDateTime 1 t = some p ∧ 24 ≤ p.hour := by
  refine ⟨⟨2000, 0, 1, t / 1800, (t - t / 1800 * 1800) / 30,
    (t - t / 1800 * 1800 - (t - t / 1800 * 1800) / 30 * 30) / 2⟩, rfl, ?_⟩
  show 24 ≤ t / 1800
  omega

/-- Witness for C5: `encodedTime = 43200` decodes to hour 24, silently
rendered as `2000-00-01T24:00:00Z`. -/
theorem DecodeDateTime_hour_ge_24_silent_witness :
    (∃ p, DecodeDateTime 1 43200 = some p ∧ 24 ≤ p.hour) ∧
      DecodeDateTimeString 1 43200 = some "2000-00-01T24:00:00Z" :=
  ⟨DecodeDateTime_hour_ge_24_silent 43200 (by decide), by decide⟩

/-- Claim C4 counterexample: `encodedTime = 1799` decodes to hour 0,
minutes 59, seconds 14 (`00:59:14Z` in the emitted string), not the claimed
`00:29:58Z`. -/
theorem decodeTime_1799_counterexample :
    (DecodeDateTime 1 1799).map (fun p => (p.hour, p.minutes, p.seconds)) =
        some (0, 59, 14) ∧
      (DecodeDateTime 1 1799).map (fun p => (p.hour, p.minutes, p.seconds)) ≠
        some (0, 29, 58) ∧
      DecodeDateTimeString 1 1799 = some "2000-00-01T00:59:14Z" := by decide

/-- Claim C4 (corrected): the time portion of the datetime decoder maps
`encodedTime = 0` to `00:00:00Z`, `1799` to `00:59:14Z`, `1800` to
`01:00:00Z` and `43199` to `23:59:14Z` in the emitted timestamp string
(the 1799 and 43199 values of the original claim were wrong: the source
divides the sub-minute remainder, at most 29, by 2, so seconds never
exceed 14). -/
theorem decodeTime_boundary_values :
    (DecodeDateTime 1 0).map (fun p => (p.hour, p.minutes, p.seconds)) =
        some (0, 0, 0) ∧
      (DecodeDateTime 1 1799).map (fun p => (p.hour, p.minutes, p.seconds)) =
        some (0, 59, 14) ∧
      (DecodeDateTime 1 1800).map (fun p => (p.hour, p.minutes, p.seconds)) =
        some (1, 0, 0) ∧
      (DecodeDateTime 1 43199).map (fun p => (p.hour, p.minutes, p.seconds)) =
        some (23, 59, 14) ∧
      DecodeDateTimeString 1 0 = some "2000-00-01T00:00:00Z" ∧
      DecodeDateTimeString 1 1799 = some "2000-00-01T00:59:14Z" ∧
      DecodeDateTimeString 1 1800 = some "2000-00-01T01:00:00Z" ∧
      DecodeDateTimeString 1 43199 = some "2000-00-01T23:59:14Z" := by decide

/-- Claim C6 (confirmed): the decoder treats a year as leap iff it is
divisible by 4 and (not divisible by 100 or divisible by 400), with
year = 2000 + the 7-bit year offset; February (table index 1) has 29 days in
a leap year, and day-of-year 60 lands on (February, day 29) in a leap year —
the February-29 boundary — but on (March, day 1) in a non-leap year.  Months
are table indices, 0 = January, exactly as the source prints them. -/
theorem DecodeDateTime_leap_rule_day60 (e : ℕ) (h : e % 512 = 60) :
    (isLeapYear (e / 512 % 128 + 2000) = true ↔
      ((e / 512 % 128 + 2000) % 4 = 0 ∧
        ((e / 512 % 128 + 2000) % 100 ≠ 0 ∨ (e / 512 % 128 + 2000) % 400 = 0))) ∧
      (daysInMonths true).getD 1 0 = 29 ∧ (daysInMonths false).getD 1 0 = 28 ∧
      (if isLeapYear (e / 512 % 128 + 2000)
        then DecodeDateTime e 0 = some ⟨e / 512 % 128 + 2000, 1, 29, 0, 0, 0⟩
        else DecodeDateTime e 0 = some ⟨e / 512 % 128 + 2000, 2, 1, 0, 0, 0⟩) := by
  refine ⟨?_, by decide, by decide, ?_⟩
  · simp only [isLeapYear, Bool.or_eq_true, Bool.and_eq_true, beq_iff_eq, bne_iff_ne]
    omega
  · cases hl : isLeapYear (e / 512 % 128 + 2000) with
    | false =>
      simp only [Bool.false_eq_true, if_false]
      simp only [DecodeDateTime, h, hl]
      rfl
    | true =>
      simp only [if_true]
      simp only [DecodeDateTime, h, hl]
      rfl

/-- Witness for C6: `encodedDate = 60` (year 2000, leap) and
`encodedDate = 60 + 512 * 23` (year 2023, not leap). -/
theorem DecodeDateTime_leap_rule_day60_witness :
    DecodeDateTime 60 0 = some ⟨2000, 1, 29, 0, 0, 0⟩ ∧
      DecodeDateTime (60 + 512 * 23) 0 = some ⟨2023, 2, 1, 0, 0, 0⟩ := by
  have h1 := (DecodeDateTime_leap_rule_day60 60 (by decide)).2.2.2
  have h2 := (DecodeDateTime_leap_rule_day60 (60 + 512 * 23) (by decide)).2.2.2
  rw [if_pos (by decide)] at h1
  rw [if_neg (by decide)] at h2
  exact ⟨h1, h2⟩

/-- Claim C9 (confirmed): whenever `DecodeDateTime` produces a result, the
day field it prints is exactly the day-of-year remaining after subtracting
the lengths of the months before the final month index — no `+1` calendar
correction is applied. -/
theorem DecodeDateTime_day_is_remaining (e t : ℕ) (p : DateTimeParts)
    (h : DecodeDateTime e t = some p) :
    p.day + ((daysInMonths (isLeapYear (e / 512 % 128 + 2000))).take p.month).sum
      = e % 512 := by
  simp only [DecodeDateTime] at h
  rcases hmw : monthWalk (daysInMonths (isLeapYear (e / 512 % 128 + 2000))) 0
      (e % 512) with _ | ⟨mo, day⟩
  · rw [hmw] at h; exact absurd h (by simp)
  · rw [hmw] at h
    simp only [Option.some.injEq] at h
    subst h
    have hsum := (monthWalk_sum_consumed _ 0 (e % 512) mo day hmw).2
    simpa using hsum

/-- Witness for C9: `encodedDate = 60` in year 2000 decodes to month index 1
with day 29, and `29 + 31 = 60`. -/
theorem DecodeDateTime_day_is_remaining_witness :
    (⟨2000, 1, 29, 0, 0, 0⟩ : DateTimeParts).day +
        ((daysInMonths (isLeapYear (60 / 512 % 128 + 2000))).take
          (⟨2000, 1, 29, 0, 0, 0⟩ : DateTimeParts).month).sum = 60 % 512 :=
  DecodeDateTime_day_is_remaining 60 0 ⟨2000, 1, 29, 0, 0, 0⟩ (by decide)

set_option maxRecDepth 8000 in
/-- Exhaustive check of `walkChecked` over every in-range day count. -/
lemma walkChecked_total : ∀ (leap : Bool), ∀ d < 367,
    1 ≤ d → (d ≤ 365 ∨ leap = true) → walkChecked leap d = true := by decide

/-- Claim C10 (confirmed): for every `encodedDate` whose day-of-year field is
between 1 and 365 (or 366 when the decoded year is leap), the month walk
terminates with a final month index in 0..11 — hence at most 11 loop
iterations and every access to the 12-entry table in bounds — and a final
remaining day count of at least 1 (and at most the final month's length). -/
theorem monthWalk_in_bounds (e : ℕ)
    (h1 : 1 ≤ e % 512)
    (h2 : e % 512 ≤ if isLeapYear (e / 512 % 128 + 2000) then 366 else 365) :
    ∃ mo day,
      monthWalk (daysInMonths (isLeapYear (e / 512 % 128 + 2000))) 0 (e % 512)
          = some (mo, day) ∧
        mo ≤ 11 ∧ 1 ≤ day ∧
        day ≤ (daysInMonths (isLeapYear (e / 512 % 128 + 2000))).getD mo 0 := by
  have hc : walkChecked (isLeapYear (e / 512 % 128 + 2000)) (e % 512) = true := by
    cases hl : isLeapYear (e / 512 % 128 + 2000) with
    | false =>
      rw [hl] at h2
      have h365 : e % 512 ≤ 365 := by simpa using h2
      exact walkChecked_total false (e % 512) (by omega) h1 (Or.inl h365)
    | true =>
      rw [hl] at h2
      have h366 : e % 512 ≤ 366 := by simpa using h2
      exact walkChecked_total true (e % 512) (by omega) h1 (Or.inr rfl)
  unfold walkChecked at hc
  rcases hmw : monthWalk (daysInMonths (isLeapYear (e / 512 % 128 + 2000))) 0
      (e % 512) with _ | ⟨mo, day⟩
  · rw [hmw] at hc; simp at hc
  · rw [hmw] at hc
    simp only [decide_eq_true_eq] at hc
    exact ⟨mo, day, rfl, hc⟩

/-- Witness for C10: `encodedDate = 60` (day-of-year 60, year 2000). -/
theorem monthWalk_in_bounds_witness :
    ∃ mo day,
      monthWalk (daysInMonths (isLeapYear (60 / 512 % 128 + 2000))) 0 (60 % 512)
          = some (mo, day) ∧
        mo ≤ 11 ∧ 1 ≤ day ∧
        day ≤ (daysInMonths (isLeapYear (60 / 512 % 128 + 2000))).getD mo 0 :=
  monthWalk_in_bounds 60 (by decide) (by decide)

/-- Claim C7 counterexample: on the claim's own 13-byte payload the decoder
does not stop after `previous_consumption` — five bytes remain after the
4-byte date/time field, which is enough for two more 2-byte fields, so
`previous_average_ambient_temperature` is set as well (to 99.99). -/
theorem processContent_example_sets_prev_temp :
    (processContent exampleTelegram).map
        (fun p => p.1.previous_average_ambient_temperature) =
      some (some (9999 / 100 : ℚ)) := by
  have h2 : toTemperature 0x27 0x0F = (9999 / 100 : ℚ) := by
    unfold toTemperature
    rw [show (((0x27 : Fin 256) : ℕ) <<< 8 ||| ((0x0F : Fin 256) : ℕ) : ℕ) = 9999
      from by decide]
    norm_num
  have hmain : (processContent exampleTelegram).map
      (fun p => p.1.previous_average_ambient_temperature) =
      some (some (toTemperature 0x27 0x0F)) := rfl
  rw [hmain, h2]

/-- Claim C7 (corrected): decoding the example payload at base offset 0
yields the measurement-count explanation at offset 0 length 2, the status
explanation at offset 2 length 2, the date/time explanation at offset 4
length 2 for the combined 4-byte field (`encodedTime = 0x1964` from the
first two bytes, `encodedDate = 0x0732` from the latter two, second byte in
transmission order as high byte), and then `previous_consumption = 100` and
`previous_average_ambient_temperature = 99.99` — 13 bytes leave 5 after the
date/time field, enough for two value fields — while `current_consumption`
and `average_ambient_temperature` remain unset. -/
theorem processContent_example_full :
    processContent exampleTelegram =
      some ({ previous_consumption := some (100 : ℚ),
              previous_average_ambient_temperature := some (9999 / 100 : ℚ),
              current_consumption := none,
              average_ambient_temperature := none },
            [⟨0, 2, KindOfData.CONTENT, Understanding.FULL,
               Desc.numMeasurements 0x02 0x00 2⟩,
             ⟨2, 2, KindOfData.CONTENT, Understanding.FULL,
               Desc.statusWord 0x00 0x00 0⟩,
             ⟨4, 2, KindOfData.CONTENT, Understanding.FULL,
               Desc.deviceDate 0x64 0x19 0x32 0x07 "2003-10-02T03:36:10Z"⟩,
             ⟨8, 2, KindOfData.CONTENT, Understanding.FULL,
               Desc.value "previous_consumption" 0xE8 0x03 (100 : ℚ)⟩,
             ⟨10, 2, KindOfData.CONTENT, Understanding.FULL,
               Desc.value "previous_average_ambient_temperature" 0x0F 0x27
                 (9999 / 100 : ℚ)⟩]) := by
  have h1 : toIndicationU 0x03 0xE8 = (100 : ℚ) := by
    unfold toIndicationU
    rw [show (((0x03 : Fin 256) : ℕ) <<< 8 ||| ((0xE8 : Fin 256) : ℕ) : ℕ) = 1000
      from by decide]
    norm_num
  have h2 : toTemperature 0x27 0x0F = (9999 / 100 : ℚ) := by
    unfold toTemperature
    rw [show (((0x27 : Fin 256) : ℕ) <<< 8 ||| ((0x0F : Fin 256) : ℕ) : ℕ) = 9999
      from by decide]
    norm_num
  have hmain : processContent exampleTelegram =
      some ({ previous_consumption := some (toIndicationU 0x03 0xE8),
              previous_average_ambient_temperature := some (toTemperature 0x27 0x0F),
              current_consumption := none,
              average_ambient_temperature := none },
            [⟨0, 2, KindOfData.CONTENT, Understanding.FULL,
               Desc.numMeasurements 0x02 0x00 2⟩,
             ⟨2, 2, KindOfData.CONTENT, Understanding.FULL,
               Desc.statusWord 0x00 0x00 0⟩,
             ⟨4, 2, KindOfData.CONTENT, Understanding.FULL,
               Desc.deviceDate 0x64 0x19 0x32 0x07 "2003-10-02T03:36:10Z"⟩,
             ⟨8, 2, KindOfData.CONTENT, Understanding.FULL,
               Desc.value "previous_consumption" 0xE8 0x03 (toIndicationU 0x03 0xE8)⟩,
             ⟨10, 2, KindOfData.CONTENT, Understanding.FULL,
               Desc.value "previous_average_ambient_temperature" 0x0F 0x27
                 (toTemperature 0x27 0x0F)⟩]) := rfl
  rw [hmain, h1, h2]

/-- `fittingCount` evaluated on every payload length the C1 claim covers. -/
lemma fittingCount_small (len : ℕ) (h : len < 14) :
    fittingCount len =
      if 12 ≤ len then 5 else if 10 ≤ len then 4 else if 8 ≤ len then 3
      else if 4 ≤ len then 2 else if 2 ≤ len then 1 else 0 := by
  interval_cases len <;> decide

/-- Claim C1 counterexample: an 8-byte payload whose date field encodes
day-of-year 367 drives the decoder into the unguarded out-of-bounds
month-table read (undefined behavior, `none` in the embedding) instead of
producing the three fitting decoded-and-annotated segments. -/
theorem processContent_malformed_date_counterexample :
    processContent ⟨0, 0, [0, 0, 0, 0, 0, 0, 0x6F, 0x01]⟩ = none ∧
      fittingCount 8 = 3 := by decide

/-- Claim C1 (amended): for every telegram holding a payload of length 0–13
whose date field — when the 4-byte date/time segment fits — keeps the
month-table walk inside the table (day-of-year at most 366 in a decoded leap
year, at most 365 otherwise), the decoder emits exactly the explanations of
the prefix of the seven fixed segments (2,2,4,2,2,2,2 bytes) whose full byte
ranges fit within the payload, and sets exactly the `DecodedReading` fields
of the fitting value segments; nothing is emitted or set for any segment
that needs bytes beyond the payload end.  (The original claim, with no
condition on the date field, fails: see the counterexample.) -/
theorem processContent_truncation (t : Telegram)
    (hidx : t.mfct_0f_index ≠ -1)
    (hlen : t.mfctData.length ≤ 13)
    (hdate : 8 ≤ t.mfctData.length →
      u16at t.mfctData 6 % 512 ≤
        if isLeapYear (u16at t.mfctData 6 / 512 % 128 + 2000) then 366 else 365) :
    ∃ r anns, processContent t = some (r, anns) ∧
      anns.map (fun a => (a.offset, a.len)) =
        (segmentRanges ((t.header_size : ℤ) + t.mfct_0f_index)).take
          (fittingCount t.mfctData.length) ∧
      (r.previous_consumption = none ↔ t.mfctData.length < 10) ∧
      (r.previous_average_ambient_temperature = none ↔ t.mfctData.length < 12) ∧
      r.current_consumption = none ∧
      r.average_ambient_temperature = none := by
  simp only [processContent]
  rw [if_neg hidx]
  by_cases h1 : 0 + 1 ≥ t.mfctData.length
  · rw [if_pos h1]
    have hf : fittingCount t.mfctData.length = 0 := by
      rw [fittingCount_small _ (by omega)]; split_ifs <;> omega
    exact ⟨emptyReading, [], rfl, by rw [hf]; rfl,
      by simp [emptyReading]; omega, by simp [emptyReading]; omega, rfl, rfl⟩
  rw [if_neg h1]
  by_cases h2 : 2 + 1 ≥ t.mfctData.length
  · rw [if_pos h2]
    have hf : fittingCount t.mfctData.length = 1 := by
      rw [fittingCount_small _ (by omega)]; split_ifs <;> omega
    exact ⟨emptyReading, _, rfl, by rw [hf]; rfl,
      by simp [emptyReading]; omega, by simp [emptyReading]; omega, rfl, rfl⟩
  rw [if_neg h2]
  by_cases h3 : 4 + 3 ≥ t.mfctData.length
  · rw [if_pos h3]
    have hf : fittingCount t.mfctData.length = 2 := by
      rw [fittingCount_small _ (by omega)]; split_ifs <;> omega
    exact ⟨emptyReading, _, rfl, by rw [hf]; rfl,
      by simp [emptyReading]; omega, by simp [emptyReading]; omega, rfl, rfl⟩
  rw [if_neg h3]
  obtain ⟨dt, hdt⟩ := Option.isSome_iff_exists.mp
    (DecodeDateTime_isSome (u16at t.mfctData 6) (u16at t.mfctData 4)
      (hdate (by omega)))
  rw [hdt]
  dsimp only
  by_cases h4 : 8 + 1 ≥ t.mfctData.length
  · rw [if_pos h4]
    have hf : fittingCount t.mfctData.length = 3 := by
      rw [fittingCount_small _ (by omega)]; split_ifs <;> omega
    exact ⟨emptyReading, _, rfl, by rw [hf]; rfl,
      by simp [emptyReading]; omega, by simp [emptyReading]; omega, rfl, rfl⟩
  rw [if_neg h4]
  by_cases h5 : 10 + 1 ≥ t.mfctData.length
  · rw [if_pos h5]
    have hf : fittingCount t.mfctData.length = 4 := by
      rw [fittingCount_small _ (by omega)]; split_ifs <;> omega
    exact ⟨_, _, rfl, by rw [hf]; rfl,
      by simp [emptyReading]; omega, by simp [emptyReading]; omega, rfl, rfl⟩
  rw [if_neg h5]
  by_cases h6 : 12 + 1 ≥ t.mfctData.length
  · rw [if_pos h6]
    have hf : fittingCount t.mfctData.length = 5 := by
      rw [fittingCount_small _ (by omega)]; split_ifs <;> omega
    exact ⟨_, _, rfl, by rw [hf]; rfl,
      by simp [emptyReading]; omega, by simp [emptyReading]; omega, rfl, rfl⟩
  exact absurd hlen (by omega)

/-- Witness for C1: a 5-byte payload (only the first two segments fit)
against base offset 0. -/
theorem processContent_truncation_witness :
    ∃ r anns,
      processContent ⟨0, 0, [1, 2, 3, 4, 5]⟩ = some (r, anns) ∧
      anns.map (fun a => (a.offset, a.len)) =
        (segmentRanges
            (((⟨0, 0, [1, 2, 3, 4, 5]⟩ : Telegram).header_size : ℤ) +
              (⟨0, 0, [1, 2, 3, 4, 5]⟩ : Telegram).mfct_0f_index)).take
          (fittingCount (⟨0, 0, [1, 2, 3, 4, 5]⟩ : Telegram).mfctData.length) ∧
      (r.previous_consumption = none ↔
        (⟨0, 0, [1, 2, 3, 4, 5]⟩ : Telegram).mfctData.length < 10) ∧
      (r.previous_average_ambient_temperature = none ↔
        (⟨0, 0, [1, 2, 3, 4, 5]⟩ : Telegram).mfctData.length < 12) ∧
      r.current_consumption = none ∧
      r.average_ambient_temperature = none :=
  processContent_truncation ⟨0, 0, [1, 2, 3, 4, 5]⟩ (by decide) (by decide)
    (by decide)

end HydroClima2
